import Mathlib

/-!
Shallow embedding of the One-Factor-Authentication server
(src/server.py) for verification of the specification claims.

The commitment store (SQLite table user_commitments, src/server.py
lines 12-24) is modelled as a list of records in insertion (rowid)
order; the table has NO uniqueness constraint on user_name, so the
list may in principle contain several records with the same
user_name, and SELECT ... fetchone returns the first one in rowid
order.  JSON request bodies are modelled as either malformed (their
processing raises an uncaught exception in do_POST) or a record of
the two optional string fields a parsed dict yields via data.get:
none models an absent field or JSON null, some s a string value.
Python truthiness of these values ("if not user_name") is falsy
exactly on none and some "".  The response body is modelled by the
single JSON field the handler serialises.  Store reads and writes
performed by a request are recorded in an operation trace.
-/

namespace OneFactorAuth

/-- One row of the user_commitments table (id left implicit: it is
the position in the list, in insertion order). -/
structure Record where
  user_name : String
  crypto_commitment : String
deriving DecidableEq

/-- The commitments database: rows in rowid (insertion) order. -/
abbrev Store := List Record

/-- src/server.py lines 54-61: SELECT 1 FROM user_commitments WHERE
user_name = ?; fetchone is not None. -/
def user_exists (user_name : String) (db : Store) : Bool :=
  db.any (fun r => r.user_name == user_name)

/-- src/server.py lines 27-33: unconditional INSERT INTO
user_commitments (the table has no unique constraint, so this
succeeds even when the user_name is already present). -/
def save_crypto_commitment (user_name crypto_commitment : String) (db : Store) : Store :=
  db ++ [Record.mk user_name crypto_commitment]

/-- src/server.py lines 36-51: SELECT crypto_commitment ... WHERE
user_name = ?; fetchone, returning the stored commitment of the
first matching row, otherwise None. -/
def verify_crypto_commitment (user_name : String) (db : Store) : Option String :=
  (db.find? (fun r => r.user_name == user_name)).map (fun r => r.crypto_commitment)

/-- Python truthiness test `not x` for a value obtained from
data.get(...): true on None (absent field or null) and on the empty
string. -/
def isFalsy : Option String → Bool
  | none => true
  | some s => s == ""

/-- A parsed POST body: either malformed (json.loads or the dict
access raises) or the two fields of interest, each possibly absent. -/
inductive ReqBody where
  | malformed
  | fields (user_name : Option String) (crypto_commitment : Option String)
deriving DecidableEq

/-- The single JSON field of a response body written by the handler,
or a raw byte body (do_GET). -/
inductive RespBody where
  | message (text : String)
  | error (text : String)
  | raw (text : String)
deriving DecidableEq

/-- What the handler wrote back: a status code with a body, nothing
at all (a request that falls through every branch), or an uncaught
exception (no response is written in that case either). -/
inductive Outcome where
  | wrote (status : Nat) (body : RespBody)
  | noWrite
  | raised
deriving DecidableEq

/-- A store operation performed while handling one request. -/
inductive StoreOp where
  | existsQ (user_name : String)
  | insertOp (user_name crypto_commitment : String)
  | getQ (user_name : String)
deriving DecidableEq

/-- True on the store operations that mutate the store. -/
def StoreOp.isMutation : StoreOp → Bool
  | .insertOp _ _ => true
  | _ => false

/-- Result of handling one request: what was written, the store
afterwards, and the trace of store operations performed. -/
structure HandlerOut where
  outcome : Outcome
  db : Store
  ops : List StoreOp
deriving DecidableEq

/-- src/server.py lines 84-112: the /enroll branch of do_POST. -/
def enrollHandler (db : Store) (body : ReqBody) : HandlerOut :=
  match body with
  | .malformed => HandlerOut.mk Outcome.raised db []
  | .fields user_name crypto_commitment =>
    if isFalsy user_name || isFalsy crypto_commitment then
      HandlerOut.mk (Outcome.wrote 400 (RespBody.error "Missing username or crypto commitment")) db []
    else
      let u := user_name.getD ""
      let c := crypto_commitment.getD ""
      if user_exists u db then
        HandlerOut.mk (Outcome.wrote 409 (RespBody.error "User already exists")) db
          [StoreOp.existsQ u]
      else
        HandlerOut.mk (Outcome.wrote 201 (RespBody.message "Crypto commitment and username saved successfully!"))
          (save_crypto_commitment u c db)
          [StoreOp.existsQ u, StoreOp.insertOp u c]

/-- src/server.py lines 114-141: the /verifyCommitment branch of
do_POST.  Note the comparison is between two Option values: the
stored commitment (None when the user has no record) and the
supplied crypto_commitment field (None when absent), and in Python
None == None is True. -/
def verifyHandler (db : Store) (body : ReqBody) : HandlerOut :=
  match body with
  | .malformed => HandlerOut.mk Outcome.raised db []
  | .fields user_name crypto_commitment =>
    if isFalsy user_name then
      HandlerOut.mk (Outcome.wrote 400 (RespBody.error "Missing username")) db []
    else
      let u := user_name.getD ""
      let stored := verify_crypto_commitment u db
      if stored == crypto_commitment then
        HandlerOut.mk (Outcome.wrote 200 (RespBody.message "Login Successful")) db
          [StoreOp.getQ u]
      else
        HandlerOut.mk (Outcome.wrote 403 (RespBody.error "Unauthorized")) db
          [StoreOp.getQ u]

/-- src/server.py lines 80-146: do_POST dispatch on self.path.  A
path that is neither /enroll nor /verifyCommitment falls through
both branches and nothing is written. -/
def do_POST (db : Store) (path : String) (body : ReqBody) : HandlerOut :=
  if path = "/enroll" then enrollHandler db body
  else if path = "/verifyCommitment" then verifyHandler db body
  else HandlerOut.mk Outcome.noWrite db []

/-- src/server.py lines 148-154: do_GET writes the liveness body on
path / and nothing otherwise; it never touches the store. -/
def do_GET (db : Store) (path : String) : HandlerOut :=
  if path = "/" then
    HandlerOut.mk (Outcome.wrote 200 (RespBody.raw "Server is running")) db []
  else HandlerOut.mk Outcome.noWrite db []

/-- The nondeterministic inputs the handler samples for logging only:
time.time() at start and end, psutil cpu and ram percentages
(src/server.py lines 63-76, 82, 144-146). -/
structure Env where
  start_time : Nat
  end_time : Nat
  cpu_usage : Nat
  ram_usage : Nat
deriving DecidableEq

/-- A log line emitted by log_request_time or log_system_resources. -/
inductive LogLine where
  | requestTime (url : String) (seconds : Nat)
  | cpuUsage (pct : Nat)
  | ramUsage (pct : Nat)
deriving DecidableEq

/-- do_POST together with its logging side channel: lines 144-146 run
after the dispatch, except when the handler raised (the exception
propagates before them). -/
def do_POST_run (env : Env) (db : Store) (path : String) (body : ReqBody) :
    HandlerOut × List LogLine :=
  let out := do_POST db path body
  if out.outcome = Outcome.raised then (out, [])
  else (out, [LogLine.requestTime path (env.end_time - env.start_time),
              LogLine.cpuUsage env.cpu_usage, LogLine.ramUsage env.ram_usage])

/-- The store uniqueness invariant: no two rows share a user_name. -/
def uniqueUsers (db : Store) : Prop :=
  db.Pairwise (fun a b => a.user_name ≠ b.user_name)

/-- The data-model invariant of the spec: at most one record per
username and no stored commitment is empty. -/
def Inv (db : Store) : Prop :=
  uniqueUsers db ∧ ∀ r ∈ db, r.crypto_commitment ≠ ""

/-- Run a sequence of POST requests (path and parsed body) through the
handler, threading the store, as the single-threaded server does. -/
def runRequests (db : Store) (reqs : List (String × ReqBody)) : Store :=
  reqs.foldl (fun d pr => (do_POST d pr.1 pr.2).db) db

/-- Phase of one in-flight enroll request in the store-touching part
of the /enroll branch (validation already passed): about to run the
user_exists check, about to run the INSERT, or finished with an HTTP
status. -/
inductive EnrollPhase where
  | check
  | doInsert
  | finished (status : Nat)
deriving DecidableEq

/-- One in-flight enroll request: its inputs and its current phase. -/
structure EnrollProc where
  user_name : String
  crypto_commitment : String
  phase : EnrollPhase
deriving DecidableEq

/-- One atomic step of an enroll request against the shared store,
mirroring src/server.py lines 100-107: the user_exists query and the
save_crypto_commitment INSERT are two separate store operations with
no storage-level uniqueness constraint between them. -/
def enrollStep (db : Store) (p : EnrollProc) : Store × EnrollProc :=
  match p.phase with
  | EnrollPhase.check =>
    if user_exists p.user_name db then
      (db, EnrollProc.mk p.user_name p.crypto_commitment (EnrollPhase.finished 409))
    else
      (db, EnrollProc.mk p.user_name p.crypto_commitment EnrollPhase.doInsert)
  | EnrollPhase.doInsert =>
    (save_crypto_commitment p.user_name p.crypto_commitment db,
     EnrollProc.mk p.user_name p.crypto_commitment (EnrollPhase.finished 201))
  | EnrollPhase.finished _ => (db, p)

/-- Shared state of two concurrent enroll requests. -/
structure RaceState where
  db : Store
  proc1 : EnrollProc
  proc2 : EnrollProc
deriving DecidableEq

/-- Scheduler step: run one atomic step of process 2 (true) or
process 1 (false). -/
def raceStep (s : RaceState) (which : Bool) : RaceState :=
  if which then
    RaceState.mk (enrollStep s.db s.proc2).1 s.proc1 (enrollStep s.db s.proc2).2
  else
    RaceState.mk (enrollStep s.db s.proc1).1 (enrollStep s.db s.proc1).2 s.proc2

/-- Run an interleaving schedule of the two enroll requests. -/
def runSchedule (s : RaceState) (sched : List Bool) : RaceState :=
  sched.foldl raceStep s

/-- Dispatch of do_POST on the /enroll path. -/
theorem do_POST_enroll_eq (db : Store) (body : ReqBody) :
    do_POST db "/enroll" body = enrollHandler db body := by
  simp [do_POST]

/-- Dispatch of do_POST on the /verifyCommitment path. -/
theorem do_POST_verify_eq (db : Store) (body : ReqBody) :
    do_POST db "/verifyCommitment" body = verifyHandler db body := by
  simp [do_POST]

/-- A present non-empty field is truthy. -/
theorem isFalsy_some_eq_false {s : String} (h : s ≠ "") : isFalsy (some s) = false := by
  simp [isFalsy, h]

/-- The user_exists query fails exactly when no row carries the
username. -/
theorem user_exists_eq_false_iff (u : String) (db : Store) :
    user_exists u db = false ↔ ∀ r ∈ db, r.user_name ≠ u := by
  simp [user_exists, List.any_eq_false]

/-- In a store with unique usernames, the lookup returns the
commitment of the (unique) record of the user. -/
theorem verify_crypto_commitment_eq_of_mem (db : Store) (u s : String)
    (huniq : uniqueUsers db) (hmem : Record.mk u s ∈ db) :
    verify_crypto_commitment u db = some s := by
  induction db with
  | nil => cases hmem
  | cons r rest ih =>
    rcases List.pairwise_cons.mp huniq with ⟨hhead, htail⟩
    rcases List.mem_cons.mp hmem with heq | hmemr
    · subst heq
      simp [verify_crypto_commitment, List.find?_cons_of_pos]
    · have hne : r.user_name ≠ u := by
        have := hhead _ hmemr
        simpa using this
      have hrec := ih htail hmemr
      simpa [verify_crypto_commitment, List.find?_cons_of_neg,
        beq_eq_false_iff_ne, hne] using hrec

/-- The /verifyCommitment branch leaves the store untouched. -/
theorem verifyHandler_db_eq (db : Store) (body : ReqBody) :
    (verifyHandler db body).db = db := by
  cases body with
  | malformed => rfl
  | fields un cc =>
    simp only [verifyHandler]
    split
    · rfl
    · split <;> rfl

/-- The /verifyCommitment branch performs no mutating store
operation. -/
theorem verifyHandler_ops_pure (db : Store) (body : ReqBody) :
    ((verifyHandler db body).ops.all fun op => ! op.isMutation) = true := by
  cases body with
  | malformed => rfl
  | fields un cc =>
    simp only [verifyHandler]
    split
    · rfl
    · split <;> simp [StoreOp.isMutation]

/-- The /enroll branch on a fresh username with non-empty fields:
201 Created and the row is appended. -/
theorem enrollHandler_fresh (db : Store) (u c : String)
    (hu : u ≠ "") (hc : c ≠ "") (hnew : user_exists u db = false) :
    enrollHandler db (ReqBody.fields (some u) (some c))
      = HandlerOut.mk
          (Outcome.wrote 201 (RespBody.message "Crypto commitment and username saved successfully!"))
          (save_crypto_commitment u c db)
          [StoreOp.existsQ u, StoreOp.insertOp u c] := by
  simp [enrollHandler, isFalsy_some_eq_false hu, isFalsy_some_eq_false hc, hnew]

/-- The /enroll branch on an already registered username with
non-empty fields: 409 Conflict and no write. -/
theorem enrollHandler_existing (db : Store) (u c : String)
    (hu : u ≠ "") (hc : c ≠ "") (hex : user_exists u db = true) :
    enrollHandler db (ReqBody.fields (some u) (some c))
      = HandlerOut.mk (Outcome.wrote 409 (RespBody.error "User already exists")) db
          [StoreOp.existsQ u] := by
  simp [enrollHandler, isFalsy_some_eq_false hu, isFalsy_some_eq_false hc, hex]

/-- The /enroll branch never changes the store when the username is
already registered, whatever the supplied commitment field is. -/
theorem enrollHandler_db_of_exists (db : Store) (u : String) (cc : Option String)
    (hex : user_exists u db = true) :
    (enrollHandler db (ReqBody.fields (some u) cc)).db = db := by
  simp only [enrollHandler]
  split
  · rfl
  · next hfalsy =>
    have hgetd : (some u).getD "" = u := rfl
    rw [hgetd, if_pos hex]

/-- Appending a fresh row with a non-empty commitment preserves the
data-model invariant. -/
theorem Inv_save (db : Store) (u c : String) (h : Inv db) (hc : c ≠ "")
    (hnew : user_exists u db = false) : Inv (save_crypto_commitment u c db) := by
  obtain ⟨h1, h2⟩ := h
  have hforall := (user_exists_eq_false_iff u db).mp hnew
  constructor
  · show (db ++ [Record.mk u c]).Pairwise _
    refine List.pairwise_append.mpr ⟨h1, List.pairwise_singleton _ _, ?_⟩
    intro a ha b hb
    rw [List.mem_singleton] at hb
    subst hb
    exact hforall a ha
  · intro r hr
    simp only [save_crypto_commitment, List.mem_append] at hr
    rcases hr with hr | hr
    · exact h2 r hr
    · rw [List.mem_singleton] at hr
      subst hr
      exact hc

/-- The /enroll branch preserves the data-model invariant. -/
theorem Inv_enrollHandler (db : Store) (body : ReqBody) (h : Inv db) :
    Inv (enrollHandler db body).db := by
  cases body with
  | malformed => exact h
  | fields un cc =>
    simp only [enrollHandler]
    split
    · exact h
    · next hfalsy =>
      split
      · exact h
      · next hnew =>
        have hnew2 : user_exists (un.getD "") db = false := by
          simpa using hnew
        have hcne : cc.getD "" ≠ "" := by
          cases cc with
          | none => simp [isFalsy] at hfalsy
          | some c0 =>
            intro hcc
            have hc0 : c0 = "" := hcc
            exact hfalsy (by simp [isFalsy, hc0])
        exact Inv_save db (un.getD "") (cc.getD "") ⟨h.1, h.2⟩ hcne hnew2

/-- Every POST request preserves the data-model invariant. -/
theorem Inv_step (db : Store) (path : String) (body : ReqBody) (h : Inv db) :
    Inv (do_POST db path body).db := by
  by_cases h1 : path = "/enroll"
  · subst h1
    rw [do_POST_enroll_eq]
    exact Inv_enrollHandler db body h
  · by_cases h2 : path = "/verifyCommitment"
    · subst h2
      rw [do_POST_verify_eq, verifyHandler_db_eq]
      exact h
    · simpa [do_POST, h1, h2] using h

/-- Running any request sequence preserves the data-model invariant. -/
theorem runRequests_Inv (db : Store) (reqs : List (String × ReqBody)) (h : Inv db) :
    Inv (runRequests db reqs) := by
  induction reqs generalizing db with
  | nil => exact h
  | cons r rest ih =>
    exact ih _ (Inv_step db r.1 r.2 h)

/-- After the INSERT, the user_exists query sees the row. -/
theorem user_exists_after_save (db : Store) (u c : String) :
    user_exists u (save_crypto_commitment u c db) = true := by
  simp [user_exists, save_crypto_commitment, List.any_append]

/-- After inserting into a store without the username, exactly one
row carries it. -/
theorem countP_save (db : Store) (u c : String) (hnew : user_exists u db = false) :
    (save_crypto_commitment u c db).countP (fun r => r.user_name == u) = 1 := by
  have hforall := (user_exists_eq_false_iff u db).mp hnew
  have hzero : db.countP (fun r => r.user_name == u) = 0 := by
    apply List.countP_eq_zero.mpr
    intro a ha
    simp [hforall a ha]
  simp [save_crypto_commitment, List.countP_append, hzero, List.countP_cons]

/-- After inserting into a store without the username, the lookup
returns the inserted commitment. -/
theorem verify_after_save (db : Store) (u c : String) (hnew : user_exists u db = false) :
    verify_crypto_commitment u (save_crypto_commitment u c db) = some c := by
  have hforall := (user_exists_eq_false_iff u db).mp hnew
  have hfindnone : db.find? (fun r => r.user_name == u) = none := by
    apply List.find?_eq_none.mpr
    intro x hx
    simp [hforall x hx]
  simp [verify_crypto_commitment, save_crypto_commitment, List.find?_append, hfindnone]

/-- Claim C1, failing input: on a store with no record for the user
ghost, a /verifyCommitment request for ghost whose crypto_commitment
field is absent is answered 200 Login Successful (Authenticated),
because the stored value and the supplied value are both None and
None == None holds in Python; the claim (and the spec) require
Unauthorized here. -/
theorem verify_unregistered_absent_commitment_authenticates :
    do_POST [] "/verifyCommitment" (ReqBody.fields (some "ghost") none)
      = HandlerOut.mk (Outcome.wrote 200 (RespBody.message "Login Successful")) []
          [StoreOp.getQ "ghost"] := rfl

/-- Claim C2: on a store with unique usernames that holds a record
for the non-empty username u with stored commitment s, verification
of u answers 200 Login Successful exactly when the supplied
commitment string equals s, and answers 403 Unauthorized otherwise;
the store and the operation trace are the same in both cases. -/
theorem verify_registered_iff_exact_match (db : Store) (u s c : String)
    (huniq : uniqueUsers db) (hmem : Record.mk u s ∈ db) (hu : u ≠ "") :
    (do_POST db "/verifyCommitment" (ReqBody.fields (some u) (some c))
        = HandlerOut.mk (Outcome.wrote 200 (RespBody.message "Login Successful")) db
            [StoreOp.getQ u]
      ↔ c = s) ∧
    (c ≠ s →
      do_POST db "/verifyCommitment" (ReqBody.fields (some u) (some c))
        = HandlerOut.mk (Outcome.wrote 403 (RespBody.error "Unauthorized")) db
            [StoreOp.getQ u]) := by
  have hstored := verify_crypto_commitment_eq_of_mem db u s huniq hmem
  rw [do_POST_verify_eq]
  by_cases hcs : c = s
  · subst hcs
    simp [verifyHandler, isFalsy_some_eq_false hu, hstored]
  · have hbeq : (s == c) = false := beq_eq_false_iff_ne.mpr (fun h => hcs h.symm)
    have hopt : ((some s : Option String) == some c) = (s == c) := rfl
    simp [verifyHandler, isFalsy_some_eq_false hu, hstored, hopt, hbeq, hcs]

/-- Witness for claim C2 at a concrete store and request. -/
theorem verify_registered_iff_exact_match_witness :
    do_POST [Record.mk "alice" "AAA111"] "/verifyCommitment"
        (ReqBody.fields (some "alice") (some "AAA111"))
      = HandlerOut.mk (Outcome.wrote 200 (RespBody.message "Login Successful"))
          [Record.mk "alice" "AAA111"] [StoreOp.getQ "alice"] :=
  (verify_registered_iff_exact_match [Record.mk "alice" "AAA111"] "alice" "AAA111" "AAA111"
    (by simp [uniqueUsers]) (by simp) (by decide)).1.mpr rfl

/-- Claim C3, counterexample: the uniqueness check and the insert are
not atomic at the storage layer.  Interleaving the check phases of
two concurrent enrolls for the username alice before either insert
phase makes both finish with 201 Created and leaves two rows for
alice in the store; moreover the storage-layer insert itself accepts
a duplicate username (the table has no unique constraint). -/
theorem enroll_race_two_created_counterexample :
    runSchedule (RaceState.mk [] (EnrollProc.mk "alice" "AAA111" EnrollPhase.check)
        (EnrollProc.mk "alice" "BBB222" EnrollPhase.check)) [false, true, false, true]
      = RaceState.mk [Record.mk "alice" "AAA111", Record.mk "alice" "BBB222"]
          (EnrollProc.mk "alice" "AAA111" (EnrollPhase.finished 201))
          (EnrollProc.mk "alice" "BBB222" (EnrollPhase.finished 201)) ∧
    save_crypto_commitment "alice" "BBB222" [Record.mk "alice" "AAA111"]
      = [Record.mk "alice" "AAA111", Record.mk "alice" "BBB222"] := ⟨rfl, rfl⟩

/-- Claim C3 as amended: when the two enroll calls for the same
non-empty username with non-empty commitments run sequentially (the
single-threaded server serialises requests), the first yields 201
Created, the store then holds exactly one record for that username
carrying the first commitment, and the second yields 409 Conflict
without changing the store. -/
theorem enroll_sequential_one_created_one_conflict (db : Store) (u c1 c2 : String)
    (hu : u ≠ "") (hc1 : c1 ≠ "") (hc2 : c2 ≠ "") (hnew : user_exists u db = false) :
    (do_POST db "/enroll" (ReqBody.fields (some u) (some c1))).outcome
        = Outcome.wrote 201 (RespBody.message "Crypto commitment and username saved successfully!") ∧
    ((do_POST db "/enroll" (ReqBody.fields (some u) (some c1))).db.countP
        (fun r => r.user_name == u)) = 1 ∧
    verify_crypto_commitment u (do_POST db "/enroll" (ReqBody.fields (some u) (some c1))).db
        = some c1 ∧
    do_POST ((do_POST db "/enroll" (ReqBody.fields (some u) (some c1))).db) "/enroll"
        (ReqBody.fields (some u) (some c2))
      = HandlerOut.mk (Outcome.wrote 409 (RespBody.error "User already exists"))
          ((do_POST db "/enroll" (ReqBody.fields (some u) (some c1))).db)
          [StoreOp.existsQ u] := by
  have h1 : do_POST db "/enroll" (ReqBody.fields (some u) (some c1))
      = HandlerOut.mk
          (Outcome.wrote 201 (RespBody.message "Crypto commitment and username saved successfully!"))
          (save_crypto_commitment u c1 db) [StoreOp.existsQ u, StoreOp.insertOp u c1] := by
    rw [do_POST_enroll_eq]
    exact enrollHandler_fresh db u c1 hu hc1 hnew
  rw [h1]
  refine ⟨rfl, countP_save db u c1 hnew, verify_after_save db u c1 hnew, ?_⟩
  rw [do_POST_enroll_eq]
  exact enrollHandler_existing _ u c2 hu hc2 (user_exists_after_save db u c1)

/-- Witness for the amended claim C3 at concrete inputs. -/
theorem enroll_sequential_one_created_one_conflict_witness :
    (do_POST [] "/enroll" (ReqBody.fields (some "alice") (some "AAA111"))).outcome
        = Outcome.wrote 201 (RespBody.message "Crypto commitment and username saved successfully!") ∧
    ((do_POST [] "/enroll" (ReqBody.fields (some "alice") (some "AAA111"))).db.countP
        (fun r => r.user_name == "alice")) = 1 ∧
    verify_crypto_commitment "alice"
        (do_POST [] "/enroll" (ReqBody.fields (some "alice") (some "AAA111"))).db
      = some "AAA111" ∧
    do_POST ((do_POST [] "/enroll" (ReqBody.fields (some "alice") (some "AAA111"))).db) "/enroll"
        (ReqBody.fields (some "alice") (some "BBB222"))
      = HandlerOut.mk (Outcome.wrote 409 (RespBody.error "User already exists"))
          ((do_POST [] "/enroll" (ReqBody.fields (some "alice") (some "AAA111"))).db)
          [StoreOp.existsQ "alice"] :=
  enroll_sequential_one_created_one_conflict [] "alice" "AAA111" "BBB222"
    (by decide) (by decide) (by decide) (by decide)

/-- Claim C4, counterexample: with alice already registered, an
enroll for alice whose commitment is the empty string is answered
400 Bad Request, not 409 Conflict as the claim states for every
commitment (the presence check runs before the uniqueness check). -/
theorem enroll_existing_empty_commitment_bad_request :
    do_POST [Record.mk "alice" "AAA111"] "/enroll" (ReqBody.fields (some "alice") (some ""))
      = HandlerOut.mk
          (Outcome.wrote 400 (RespBody.error "Missing username or crypto commitment"))
          [Record.mk "alice" "AAA111"] [] := rfl

/-- Claim C4 as amended: when the store already has a record for
username u, an enroll for u leaves the store unchanged whatever the
supplied commitment field is (an existing commitment is never
overwritten), and is answered 409 Conflict whenever the supplied
username and commitment are non-empty (a missing or empty field is
answered 400 Bad Request instead). -/
theorem enroll_existing_never_overwrites (db : Store) (u : String)
    (hex : user_exists u db = true) :
    (∀ cc : Option String, (do_POST db "/enroll" (ReqBody.fields (some u) cc)).db = db) ∧
    (∀ c : String, u ≠ "" → c ≠ "" →
      do_POST db "/enroll" (ReqBody.fields (some u) (some c))
        = HandlerOut.mk (Outcome.wrote 409 (RespBody.error "User already exists")) db
            [StoreOp.existsQ u]) := by
  constructor
  · intro cc
    rw [do_POST_enroll_eq]
    exact enrollHandler_db_of_exists db u cc hex
  · intro c hu hc
    rw [do_POST_enroll_eq]
    exact enrollHandler_existing db u c hu hc hex

/-- Witness for the amended claim C4 at a concrete store and request. -/
theorem enroll_existing_never_overwrites_witness :
    (do_POST [Record.mk "alice" "AAA111"] "/enroll"
        (ReqBody.fields (some "alice") (some "BBB222"))).db = [Record.mk "alice" "AAA111"] ∧
    do_POST [Record.mk "alice" "AAA111"] "/enroll" (ReqBody.fields (some "alice") (some "BBB222"))
      = HandlerOut.mk (Outcome.wrote 409 (RespBody.error "User already exists"))
          [Record.mk "alice" "AAA111"] [StoreOp.existsQ "alice"] :=
  ⟨(enroll_existing_never_overwrites [Record.mk "alice" "AAA111"] "alice" (by decide)).1
      (some "BBB222"),
   (enroll_existing_never_overwrites [Record.mk "alice" "AAA111"] "alice" (by decide)).2
      "BBB222" (by decide) (by decide)⟩

/-- Claim C5: every store reachable from the empty store by a
sequence of POST requests (enrolls and verifications, with any paths
and bodies) has at most one record per username and no empty stored
commitment. -/
theorem reachable_store_satisfies_invariant (reqs : List (String × ReqBody)) :
    Inv (runRequests [] reqs) := by
  apply runRequests_Inv
  exact ⟨List.Pairwise.nil, by simp⟩

/-- Claim C6: an enroll whose username or commitment field is missing
or empty is answered 400 Bad Request, the store is unchanged, and no
store operation is performed. -/
theorem enroll_missing_fields_bad_request (db : Store) (un cc : Option String)
    (h : (isFalsy un || isFalsy cc) = true) :
    do_POST db "/enroll" (ReqBody.fields un cc)
      = HandlerOut.mk
          (Outcome.wrote 400 (RespBody.error "Missing username or crypto commitment")) db [] := by
  rw [do_POST_enroll_eq]
  simp [enrollHandler, h]

/-- Witness for claim C6 at a concrete store and request. -/
theorem enroll_missing_fields_bad_request_witness :
    do_POST [] "/enroll" (ReqBody.fields (some "") (some "AAA111"))
      = HandlerOut.mk
          (Outcome.wrote 400 (RespBody.error "Missing username or crypto commitment")) [] [] :=
  enroll_missing_fields_bad_request [] (some "") (some "AAA111") (by decide)

/-- Claim C7: a verification request never mutates the store (the
store is returned unchanged and the operation trace holds no
mutating operation), and repeating the same verification on the
resulting store yields the identical result. -/
theorem verify_pure_read_idempotent (db : Store) (body : ReqBody) :
    (do_POST db "/verifyCommitment" body).db = db ∧
    ((do_POST db "/verifyCommitment" body).ops.all fun op => ! op.isMutation) = true ∧
    do_POST ((do_POST db "/verifyCommitment" body).db) "/verifyCommitment" body
      = do_POST db "/verifyCommitment" body := by
  have hdb : (do_POST db "/verifyCommitment" body).db = db := by
    rw [do_POST_verify_eq]
    exact verifyHandler_db_eq db body
  refine ⟨hdb, ?_, ?_⟩
  · rw [do_POST_verify_eq]
    exact verifyHandler_ops_pure db body
  · rw [hdb]

/-- Claim C8, counterexample: a malformed body sent to /enroll
performs no store operation, but the handler raises an uncaught
exception instead of writing a structured error response: its
outcome is raised, which is not a written response. -/
theorem malformed_enroll_no_structured_response :
    (do_POST [] "/enroll" ReqBody.malformed).outcome = Outcome.raised ∧
    (do_POST [] "/enroll" ReqBody.malformed).ops = [] ∧
    Outcome.raised ≠ Outcome.wrote 400 (RespBody.error "Missing username or crypto commitment") :=
  ⟨rfl, rfl, by decide⟩

/-- Claim C8 as amended: a request to /enroll or /verifyCommitment
whose body is not well-formed JSON never reaches a store operation
and leaves the store unchanged, but it is not answered with a
structured error response: the JSON parse raises an uncaught
exception and nothing is written to the client. -/
theorem malformed_body_raises_no_store_ops (db : Store) :
    do_POST db "/enroll" ReqBody.malformed = HandlerOut.mk Outcome.raised db [] ∧
    do_POST db "/verifyCommitment" ReqBody.malformed = HandlerOut.mk Outcome.raised db [] := by
  constructor
  · rw [do_POST_enroll_eq]
    rfl
  · rw [do_POST_verify_eq]
    rfl

/-- Claim C9: for a fixed store and a fixed POST request, the written
status code, response body, resulting store and operation trace do
not depend on the nondeterministic inputs the handler samples (clock
readings and resource usage, which only feed the log lines), so two
runs of the handler produce identical responses. -/
theorem do_POST_outcome_independent_of_env (e1 e2 : Env) (db : Store)
    (path : String) (body : ReqBody) :
    (do_POST_run e1 db path body).1 = (do_POST_run e2 db path body).1 := by
  by_cases h : (do_POST db path body).outcome = Outcome.raised <;>
    simp [do_POST_run, h]

/-- Claim C10: a POST request whose path is neither /enroll nor
/verifyCommitment, and a GET request whose path is not the root,
fall through every branch: nothing is written back, the store is
unchanged, and no store operation is performed. -/
theorem unknown_path_writes_nothing (db : Store) (path pget : String) (body : ReqBody)
    (h1 : path ≠ "/enroll") (h2 : path ≠ "/verifyCommitment") (h3 : pget ≠ "/") :
    do_POST db path body = HandlerOut.mk Outcome.noWrite db [] ∧
    do_GET db pget = HandlerOut.mk Outcome.noWrite db [] := by
  constructor
  · simp [do_POST, h1, h2]
  · simp [do_GET, h3]

/-- Witness for claim C10 at concrete paths. -/
theorem unknown_path_writes_nothing_witness :
    do_POST [] "/status" (ReqBody.fields none none) = HandlerOut.mk Outcome.noWrite [] [] ∧
    do_GET [] "/health" = HandlerOut.mk Outcome.noWrite [] [] :=
  unknown_path_writes_nothing [] "/status" "/health" (ReqBody.fields none none)
    (by decide) (by decide) (by decide)

end OneFactorAuth
